import Mathlib

/-!
Shallow embedding of `ncompare/core.py` ("Compare the structure of two NetCDF
files") and proofs about the behaviour of its comparison routines.

Modelling conventions:
* Python strings are Lean `String`s; Python slicing `s[:n]` is `String.take`.
* Python `None`-able values are `Option`s; a raised exception is the `error`
  case of `Except PyErr`, and a computation that can raise is `Except`- or
  `Option`-valued.
* Floating point values are modelled as rationals; a NaN sample is `none` in
  `Option ℚ`.
* dtype / shape / chunking strings of a NetCDF variable are opaque renderings
  produced by the external netCDF4 collaborator, so the model stores them as
  strings directly.
-/

namespace Ncompare

/-- Python exceptions that the code under study raises or catches.
`keyError` carries the traceback text that `traceback.format_exc()` would
render for it. -/
inductive PyErr where
  | keyError (trace : String)
  | osError
  | valueError (msg : String)
  | attributeError
deriving DecidableEq

/-- Python truthiness of an optional string argument (`None` and `""` are
falsy). -/
def pyTruthy : Option String → Bool
  | some s => !s.isEmpty
  | none => false

/-- A scalar Python value that can appear as (an element of) a NetCDF
attribute: a string, a float, or an integer. -/
inductive AttrScalar where
  | strVal (s : String)
  | floatVal (q : ℚ)
  | intVal (z : ℤ)
deriving DecidableEq

/-- A NetCDF attribute value: either a scalar, or an iterable of scalars
(`isinstance(attr, Iterable) and not isinstance(attr, (str, float))` in the
source selects exactly the `iterable` constructor: Python strings are
iterable but are excluded by the isinstance test, as are floats). -/
inductive AttrValue where
  | scalar (v : AttrScalar)
  | iterable (elems : List AttrScalar)
deriving DecidableEq

/-- Python `str()` on an attribute scalar. Numeric text is rendered by
`toString` of the model's number types. -/
def pyStrScalar : AttrScalar → String
  | .strVal s => s
  | .floatVal q => toString q
  | .intVal z => toString z

/-- Python `str()` on an attribute value (a full, untruncated rendering). -/
def pyStr : AttrValue → String
  | .scalar v => pyStrScalar v
  | .iterable es => "[" ++ String.intercalate ", " (es.map pyStrScalar) ++ "]"

/-- Model of a `netCDF4.Variable` as the comparison code observes it:
pre-rendered dtype/shape/chunking strings, the attribute mapping
(`ncattrs`), and an optional `scale_factor` attribute. -/
structure NCVariable where
  dtype : String
  shape : String
  chunking : String
  attributes : List (String × AttrValue)
  scale_factor : Option ℚ
deriving DecidableEq

/-- The `VarProperties` namedtuple:
`(varname, variable, dtype, shape, chunking, attributes)`.
`variable_` is `None` and `attributes` is `None` exactly when the namedtuple
was built for an absent variable (falsy `varname`). -/
structure VarProperties where
  varname : String
  variable_ : Option NCVariable
  dtype : String
  shape : String
  chunking : String
  attributes : Option (List (String × AttrValue))
deriving DecidableEq

/-- One three-column report row passed to `Outputter.side_by_side`:
`(label, value_a, value_b)` plus the `highlight_diff` and `dash_line` flags of
the call. -/
structure Row where
  label : String
  val_a : String
  val_b : String
  highlight_diff : Bool
  dash_line : Bool
deriving DecidableEq

/-- Lexicographic comparison of code-point sequences — how Python compares
strings. -/
def chars_le : List Char → List Char → Bool
  | [], _ => true
  | _ :: _, [] => false
  | a :: as, b :: bs =>
    if a < b then true else if b < a then false else chars_le as bs

/-- Python `a <= b` on strings. -/
def py_str_le (a b : String) : Bool :=
  chars_le a.data b.data

/-- Insert a string into a sorted list of strings (helper of the model's
sort). -/
def insert_sorted (s : String) : List String → List String
  | [] => [s]
  | t :: rest =>
    if py_str_le s t then s :: t :: rest else t :: insert_sorted s rest

/-- Python `sorted` on a list of strings (insertion sort; only the resulting
order matters). -/
def pySorted (l : List String) : List String :=
  l.foldr insert_sorted []

/-- The sorted list of distinct keys of `l` — the model's deterministic
stand-in for iterating a Python `set` built from `l` (Python set iteration
order is unspecified; any fixed order is a faithful determinization). -/
def py_set_sorted (l : List String) : List String :=
  pySorted l.dedup

/-- Deterministic iteration of `set(a) & set(b)`. -/
def py_set_and_sorted (a b : List String) : List String :=
  py_set_sorted (a.filter fun s => b.contains s)

/-- Modelled from the spec: `count_diffs` of `ncompare.sequence_operations`
is not under `src/`; the spec's `set_diff_counts(A, B)` "treats A, B as sets
of keys" and returns `(left_only_count, right_only_count, shared_count)`. -/
def count_diffs (a b : List String) : ℕ × ℕ × ℕ :=
  ((a.toFinset \ b.toFinset).card, (b.toFinset \ a.toFinset).card,
    (a.toFinset ∩ b.toFinset).card)

/-- Modelled from the spec: `common_elements` of
`ncompare.sequence_operations` is not under `src/`; the spec's
`paired_iterate(A, B)` "computes the sorted union of keys from A and B; for
each union key at position i (0-based), yields `key_a = key` if present in A
else empty string, symmetrically for `key_b`". -/
def common_elements (a b : List String) : List (ℕ × String × String) :=
  let union := py_set_sorted (a ++ b)
  union.mapIdx fun i k => (i, if k ∈ a then k else "", if k ∈ b then k else "")

/-- `_get_attribute_value_as_str(varprops, attribute_key)`.
`none` models the `AttributeError` Python would raise when
`varprops.attributes` is `None` (`None.get(...)`). -/
def _get_attribute_value_as_str (varprops : VarProperties)
    (attribute_key : String) : Option String :=
  varprops.attributes.map fun attrs =>
    match attrs.lookup attribute_key with
    | some attr =>
      match attr with
      | .iterable es =>
        "[" ++ String.intercalate ", " ((es.take 5).map pyStrScalar) ++ ", ...]"
      | .scalar v => pyStrScalar v
    | none => ""

/-- The scale factor of a `VarProperties`' backing variable as the source
tests it: `getattr(v.variable, 'scale_factor', None)` used in an `if`, so a
missing variable, a missing attribute and a zero value are all falsy. -/
def truthy_scale_factor (v : VarProperties) : Option ℚ :=
  match v.variable_ with
  | some the_variable =>
    match the_variable.scale_factor with
    | some q => if q ≠ 0 then some q else none
    | none => none
  | none => none

/-- Rendering of one side of the scale-factor row: `str(sf)` where `sf` is
either the scale factor or the `' '` placeholder. -/
def scale_factor_str (sf : Option ℚ) : String :=
  match sf with
  | some q => toString q
  | none => " "

/-- The scale-factor block at the end of
`_print_var_properties_side_by_side`: the `sf:` row is produced only when
`(sf_a != " ") or (sf_b != " ")`, i.e. when at least one side has a truthy
scale factor. -/
def scale_factor_rows (v_a v_b : VarProperties) : List Row :=
  if (truthy_scale_factor v_a).isSome || (truthy_scale_factor v_b).isSome then
    [⟨"sf:", scale_factor_str (truthy_scale_factor v_a),
      scale_factor_str (truthy_scale_factor v_b), true, false⟩]
  else []

/-- The attribute block of `_print_var_properties_side_by_side` (executed
when `show_attributes` is set): attribute-name lists are empty when the
`attributes` mapping is `None` or empty (Python truthiness), aligned with
`common_elements`, and each aligned pair is rendered with
`_get_attribute_value_as_str`. `none` propagates a raised exception. -/
def attribute_rows (v_a v_b : VarProperties) : Option (List Row) :=
  let attrs_a_names : List String :=
    match v_a.attributes with
    | some m => if m.isEmpty then [] else m.map Prod.fst
    | none => []
  let attrs_b_names : List String :=
    match v_b.attributes with
    | some m => if m.isEmpty then [] else m.map Prod.fst
    | none => []
  (common_elements attrs_a_names attrs_b_names).mapM fun t =>
    match _get_attribute_value_as_str v_a t.2.1,
          _get_attribute_value_as_str v_b t.2.2 with
    | some attr_a, some attr_b =>
      some ⟨(if t.2.1 ≠ "" then t.2.1 else t.2.2) ++ ":", attr_a, attr_b,
        true, false⟩
    | _, _ => none

/-- `_print_var_properties_side_by_side(out, v_a, v_b, show_chunks,
show_attributes)`: the sequence of rows this call sends to
`out.side_by_side`, or `none` if an exception is raised while rendering an
attribute. -/
def _print_var_properties_side_by_side (v_a v_b : VarProperties)
    (show_chunks show_attributes : Bool) : Option (List Row) :=
  (if show_attributes then attribute_rows v_a v_b else some []).map
    fun attr_rows =>
      [⟨"-----VARIABLE-----:", v_a.varname.take 47, v_b.varname.take 47,
          false, false⟩,
        ⟨"dtype:", v_a.dtype, v_b.dtype, true, false⟩,
        ⟨"shape:", v_a.shape, v_b.shape, true, false⟩]
      ++ (if show_chunks then
            [⟨"chunksize:", v_a.chunking, v_b.chunking, true, false⟩]
          else [])
      ++ attr_rows ++ scale_factor_rows v_a v_b

/-- Model of an open `netCDF4.Dataset`: the root variable mapping and the
group mapping (group name to that group's variable mapping). -/
structure Dataset where
  variables_ : List (String × NCVariable)
  groups : List (String × List (String × NCVariable))
deriving DecidableEq

/-- `_var_properties(dataset, varname, groupname)`: builds the
`VarProperties` namedtuple; `none` models the `KeyError` raised when the
group or variable lookup fails. A falsy `varname` yields the namedtuple of
an absent variable. -/
def _var_properties (dataset : Dataset) (varname : String)
    (groupname : Option String) : Option VarProperties :=
  if varname ≠ "" then
    let the_vars : Option (List (String × NCVariable)) :=
      if pyTruthy groupname then dataset.groups.lookup (groupname.getD "")
      else some dataset.variables_
    match the_vars with
    | none => none
    | some vs =>
      match vs.lookup varname with
      | none => none
      | some the_variable =>
        some ⟨varname, some the_variable, the_variable.dtype,
          the_variable.shape, the_variable.chunking,
          some the_variable.attributes⟩
  else
    some ⟨varname, none, "", "", "", none⟩

/-- Python `format(s, "02")` on a string: since 3.10 a `0` fill with the
default left alignment, so short names are padded on the right with `'0'`
to width 2. -/
def py_format_width2_zerofill (s : String) : String :=
  if s.length < 2 then s ++ String.mk (List.replicate (2 - s.length) '0')
  else s

/-- Python `s.strip()`: drop leading and trailing whitespace. -/
def py_strip (s : String) : String :=
  String.mk
    (((s.data.dropWhile Char.isWhitespace).reverse.dropWhile
      Char.isWhitespace).reverse)

/-- The two rows printed before each group's variables in
`compare_two_nc_files`: a blank spacer and the
`f"GROUP #\x7bgroup_name:02\x7d"` header with the stripped name on both
sides. -/
def group_header_rows (group_name : String) : List Row :=
  [⟨" ", " ", " ", false, false⟩,
   ⟨"GROUP #" ++ py_format_width2_zerofill group_name,
     py_strip group_name, py_strip group_name, false, true⟩]

/-- The body of the `for variable in set(a) & set(b)` loops: look up both
sides' `VarProperties` and print them side by side (in either group or
root). The Python loop iterates a set in unspecified order; the model fixes
the sorted order (the emitted multiset of rows is the same). -/
def shared_variable_rows (nc_a nc_b : Dataset) (groupname : Option String)
    (show_chunks show_attributes : Bool) (shared : List String) :
    Option (List (List Row)) :=
  shared.mapM fun variable_name => do
    let v_a ← _var_properties nc_a variable_name groupname
    let v_b ← _var_properties nc_b variable_name groupname
    _print_var_properties_side_by_side v_a v_b show_chunks show_attributes

/-- `_process_variables(out, nc_a, nc_b, group_name, num_var_diffs,
show_chunks, show_attributes)`: returns the `(left, right, both)` increments
added to `num_var_diffs` and the rows this group's section emits, or `none`
when a lookup or a rendering step raises. -/
def _process_variables (nc_a nc_b : Dataset) (group_name : String)
    (show_chunks show_attributes : Bool) :
    Option ((ℕ × ℕ × ℕ) × List Row) := do
  let grp_a ← nc_a.groups.lookup group_name
  let grp_b ← nc_b.groups.lookup group_name
  let var_rows ← shared_variable_rows nc_a nc_b (some group_name)
    show_chunks show_attributes
    (py_set_and_sorted (pySorted (grp_a.map Prod.fst))
      (pySorted (grp_b.map Prod.fst)))
  pure (count_diffs (pySorted (grp_a.map Prod.fst))
      (pySorted (grp_b.map Prod.fst)),
    [⟨"num variables in group:", toString (pySorted (grp_a.map Prod.fst)).length,
       toString (pySorted (grp_b.map Prod.fst)).length, true, false⟩,
     ⟨"-", "-", "-", false, true⟩] ++ var_rows.flatten)

/-- The group names over which `compare_two_nc_files` recurses:
`set(nc_a.groups) & set(nc_b.groups)`, iterated in sorted order. -/
def common_group_names (nc_a nc_b : Dataset) : List String :=
  py_set_and_sorted (nc_a.groups.map Prod.fst) (nc_b.groups.map Prod.fst)

/-- One group's contribution inside the group loop of
`compare_two_nc_files`: the spacer and `GROUP #...` header rows followed by
`_process_variables`, keeping that call's count increments. -/
def group_section (nc_a nc_b : Dataset) (show_chunks show_attributes : Bool)
    (group_name : String) : Option ((ℕ × ℕ × ℕ) × List Row) := do
  let r ← _process_variables nc_a nc_b group_name show_chunks show_attributes
  pure (r.1, group_header_rows group_name ++ r.2)

/-- The group `for` loop: run one section per group name, stopping at the
first raised exception (Python loop semantics). -/
def run_sections (f : String → Option ((ℕ × ℕ × ℕ) × List Row)) :
    List String → Option (List ((ℕ × ℕ × ℕ) × List Row))
  | [] => some []
  | g :: rest =>
    match f g with
    | none => none
    | some r =>
      match run_sections f rest with
      | none => none
      | some rs => some (r :: rs)

/-- `compare_two_nc_files(out, nc_one, nc_two, show_chunks,
show_attributes)`: returns the final `(num_var_diffs['left'],
num_var_diffs['right'], num_var_diffs['both'])` triple together with every
row sent to `out.side_by_side`, or `none` when some step raises. Set
iteration is again fixed to sorted order. -/
def compare_two_nc_files (nc_a nc_b : Dataset)
    (show_chunks show_attributes : Bool) :
    Option ((ℕ × ℕ × ℕ) × List Row) := do
  let header : List Row :=
    [⟨" ", "File A", "File B", false, false⟩,
     ⟨"All Variables", " ", " ", false, false⟩,
     ⟨"-", "-", "-", false, true⟩]
  let vars_a_set := (nc_a.variables_.map Prod.fst).toFinset
  let vars_b_set := (nc_b.variables_.map Prod.fst).toFinset
  let common_vars := vars_a_set ∩ vars_b_set
  let root_both := common_vars.card
  let root_left := (vars_a_set \ common_vars).card
  let root_right := (vars_b_set \ common_vars).card
  let counts_rows : List Row :=
    [⟨"num variables in root group:", toString vars_a_set.card,
       toString vars_b_set.card, false, false⟩,
     ⟨"-", "-", "-", false, true⟩]
  let root_rows ← shared_variable_rows nc_a nc_b none show_chunks
    show_attributes
    (py_set_and_sorted (nc_a.variables_.map Prod.fst)
      (nc_b.variables_.map Prod.fst))
  let group_results ← run_sections
    (group_section nc_a nc_b show_chunks show_attributes)
    (common_group_names nc_a nc_b)
  let left := root_left + (group_results.map fun r => r.1.1).sum
  let right := root_right + (group_results.map fun r => r.1.2.1).sum
  let both := root_both + (group_results.map fun r => r.1.2.2).sum
  let footer : List Row :=
    [⟨"-", "-", "-", false, true⟩,
     ⟨"Total number of shared items:", toString both, toString both,
       false, false⟩,
     ⟨"Total number of non-shared items:", toString left, toString right,
       false, false⟩]
  pure ((left, right, both),
    header ++ counts_rows ++ root_rows.flatten
      ++ (group_results.map fun r => r.2).flatten ++ footer)

/-- The number of variable names a file contributes to the collections the
all-variables pass walks: its root variables plus, for each listed group
name, the variables of that group. -/
def total_vars_over (nc : Dataset) (gs : List String) : ℕ :=
  nc.variables_.length
    + (gs.map fun g => ((nc.groups.lookup g).getD []).length).sum

/-- An `xarray` dataset opened on one group, as
`compare_multiple_random_values` sees it: its variable mapping. -/
structure XrDataset where
  variables_ : List (String × NCVariable)
deriving DecidableEq

/-- `xarray` attribute access `ds.<name>`: resolves against the dataset's
variables, raising `AttributeError` when nothing of that name exists. -/
def xr_getattr (ds : XrDataset) (name : String) : Except PyErr NCVariable :=
  match ds.variables_.lookup name with
  | some v => .ok v
  | none => .error .attributeError

/-- The per-trial progress glyph:
`{True: ".", None: "n"}.get(match_result, "x")`. -/
def trialChar (match_result : Option Bool) : String :=
  match match_result with
  | some true => "."
  | none => "n"
  | some false => "x"

/-- The trial loop of `compare_multiple_random_values`: for the given list
of `_match_random_value` results, the glyphs printed (one `out.print(c,
end="")` chunk per trial) and the final `num_mismatches` tally, which is
incremented exactly when the printed glyph is `"x"`. -/
def sampling_loop : List (Option Bool) → List String × ℕ
  | [] => ([], 0)
  | r :: rest =>
    let print_char := trialChar r
    let rest_result := sampling_loop rest
    (print_char :: rest_result.1,
      (if print_char = "x" then 1 else 0) + rest_result.2)

/-- The summary message printed after the trial loop. -/
def final_message (num_mismatches num_comparisons : ℕ) : String :=
  if num_mismatches = 0 then " No mismatches."
  else " " ++ toString num_mismatches ++ " mismatches, out of "
    ++ toString num_comparisons ++ " samples."

/-- Default trial count of `compare_multiple_random_values`. -/
def num_comparisons_default : ℕ := 100

/-- What one run of the sampling comparator prints. -/
structure SamplingOutput where
  glyphs : List String
  num_mismatches : ℕ
  message : String
deriving DecidableEq

/-- `compare_multiple_random_values(out, nc_a, nc_b, groupname,
num_comparisons)`: the two datasets are opened on `groupname`, then the code
reads `ds_a.varname` and `ds_b.varname` — attribute access for the literal
name `"varname"` (the function receives no variable-name argument at all).
`trial i va vb` abstracts the outcome of `_match_random_value` at trial `i`
on the selected variables (randomness and value reads). -/
def compare_multiple_random_values (ds_a ds_b : XrDataset)
    (trial : ℕ → NCVariable → NCVariable → Option Bool)
    (num_comparisons : ℕ) : Except PyErr SamplingOutput := do
  let nc_var_a ← xr_getattr ds_a "varname"
  let nc_var_b ← xr_getattr ds_b "varname"
  let results := (List.range num_comparisons).map fun i =>
    trial i nc_var_a nc_var_b
  let looped := sampling_loop results
  pure ⟨looped.1, looped.2, final_message looped.2 num_comparisons⟩

/-- The detailed block printed by `_match_random_value` when the difference
exceeds the threshold: the variable shape, the sampled indices, both values
and the signed difference `value_b - value_a` that appears in the
"Difference exceeded threshold" line. -/
structure MismatchReport where
  var_shape : List ℕ
  indices : List ℕ
  value_a : ℚ
  value_b : ℚ
  diff : ℚ
deriving DecidableEq

/-- Default threshold of `_match_random_value` (`thresh: float = 1e-6`). -/
def thresh_default : ℚ := 1 / 1000000

/-- `_match_random_value(out, nc_var_a, nc_var_b, thresh)` for one trial:
`rand_index` is the random index tuple drawn from `nc_var_a.shape`,
`value_a`/`value_b` are the sampled values (`none` models NaN). Returns the
`None`/`True`/`False` classification and the mismatch report, if emitted. -/
def _match_random_value (var_shape rand_index : List ℕ)
    (value_a value_b : Option ℚ) (thresh : ℚ) :
    Option Bool × Option MismatchReport :=
  match value_a, value_b with
  | none, _ => (none, none)
  | some _, none => (none, none)
  | some a, some b =>
    if |b - a| > thresh then
      (some false, some ⟨var_shape, rand_index, a, b, b - a⟩)
    else (some true, none)

/-- Does the second code-point sequence start with the first? -/
def starts_with_chars : List Char → List Char → Bool
  | [], _ => true
  | _ :: _, [] => false
  | n :: ns, h :: hs => if n = h then starts_with_chars ns hs else false

/-- Does the second code-point sequence contain the first as a contiguous
run? -/
def contains_chars (needle : List Char) : List Char → Bool
  | [] => needle.isEmpty
  | h :: rest => starts_with_chars needle (h :: rest) || contains_chars needle rest

/-- Python `"decode_times" in str(err)`. -/
def str_contains_decode_times (msg : String) : Bool :=
  contains_chars "decode_times".data msg.data

/-- `_get_dims(nc_filepath)`: `fetch dt` abstracts
`__get_dim_list(decode_times=dt)`. The default fetch runs with
`decode_times=True`; only a `ValueError` whose text mentions `decode_times`
triggers the single retry with `decode_times=False`, whose outcome (success
or error) is returned as is. Every other error propagates. -/
def _get_dims (fetch : Bool → Except PyErr (List (String × ℕ))) :
    Except PyErr (List (String × ℕ)) :=
  match fetch true with
  | .ok dims_list => .ok dims_list
  | .error err =>
    match err with
    | .valueError msg =>
      if str_contains_decode_times msg then fetch false
      else .error (.valueError msg)
    | e => .error e

/-- Outcomes of the effectful sub-steps of `run_through_comparisons`, so its
control flow (which steps run, which exceptions are caught) can be studied
independently of file contents. -/
structure RunEnv where
  dims_a : Except PyErr (List (String × ℕ))
  dims_b : Except PyErr (List (String × ℕ))
  groups_a : Except PyErr (List String)
  groups_b : Except PyErr (List String)
  vars_a : Except PyErr (List String)
  vars_b : Except PyErr (List String)
  sample_a : Except PyErr Unit
  sample_b : Except PyErr Unit
  random_check : Except PyErr Unit
  all_vars : Except PyErr (ℕ × ℕ × ℕ)

/-- Observable milestones of one `run_through_comparisons` pass. -/
inductive Event where
  | dims_compared
  | groups_compared
  | group_vars_compared
  | samples_printed
  | random_values_checked
  | lookup_error_reported (trace : String)
  | skipped_no_variable
  | skipped_no_group
  | all_variables_compared
deriving DecidableEq

/-- `run_through_comparisons(out, nc_a, nc_b, comparison_var_group,
comparison_var_name, show_chunks, show_attributes)`: dimension and group
phases run first; `_get_vars` runs for both files outside any handler; the
sample-printing and random-value steps run inside `try ... except KeyError`,
whose handler prints the error with `traceback.format_exc()` and falls
through; finally `compare_two_nc_files` runs. The result is the milestone
trace, or the exception that aborted the pass. -/
def run_through_comparisons (env : RunEnv)
    (comparison_var_group comparison_var_name : Option String) :
    Except PyErr (List Event) := do
  let _ ← env.dims_a
  let _ ← env.dims_b
  let _ ← env.groups_a
  let _ ← env.groups_b
  let head := [Event.dims_compared, Event.groups_compared]
  let mid ←
    if pyTruthy comparison_var_group then do
      let _ ← env.vars_a
      let _ ← env.vars_b
      if pyTruthy comparison_var_name then
        match (do
          let _ ← env.sample_a
          let _ ← env.sample_b
          let _ ← env.random_check
          pure () : Except PyErr Unit) with
        | .ok _ =>
          pure [Event.group_vars_compared, Event.samples_printed,
            Event.random_values_checked]
        | .error e =>
          match e with
          | .keyError trace =>
            pure [Event.group_vars_compared, Event.lookup_error_reported trace]
          | e' => throw e'
      else
        pure [Event.group_vars_compared, Event.skipped_no_variable]
    else
      pure [Event.skipped_no_group]
  let _ ← env.all_vars
  pure (head ++ mid ++ [Event.all_variables_compared])

/-- The property the scale-factor row reacts to: the side's variable exists
and carries a nonzero `scale_factor`. -/
def has_nonzero_scale_factor (v : VarProperties) : Prop :=
  ∃ nc q, v.variable_ = some nc ∧ nc.scale_factor = some q ∧ q ≠ 0

/-! Concrete fixtures used by witnesses and counterexamples. -/

/-- A float variable carrying a `units = "m"` attribute. -/
def vUnits : NCVariable :=
  ⟨"float32", "(2,)", "[2]", [("units", .scalar (.strVal "m"))], none⟩

/-- A float variable with no attributes. -/
def vPlain : NCVariable := ⟨"float32", "(2,)", "[2]", [], none⟩

/-- Source A: one root variable `v` with the `units` attribute, no groups. -/
def dsA : Dataset := ⟨[("v", vUnits)], []⟩

/-- Source B: the same root variable `v`, without attributes. -/
def dsB : Dataset := ⟨[("v", vPlain)], []⟩

/-- A source with no variables and no groups at all. -/
def dsBempty : Dataset := ⟨[], []⟩

/-- A group's dataset holding the requested comparison variable
`temperature` and nothing else — in particular nothing named `varname`. -/
def dsTemperature : XrDataset := ⟨[("temperature", vPlain)]⟩

/-! Generic helper lemmas. -/

/-- Python slicing `s[:n]` returns the whole string when it has at most `n`
characters. -/
theorem string_take_of_length_le (s : String) (n : ℕ) (h : s.length ≤ n) :
    s.take n = s := by
  cases s with
  | mk data =>
    rw [String.take_eq]
    exact congrArg String.mk (List.take_of_length_le h)

/-! ## Claim C1 -/

/-- Claim C1 concerns a code bug: the claim says
`compare_multiple_random_values` compares values of the variable whose name
was requested, but the code reads `ds_a.varname` / `ds_b.varname` — attribute
access for the literal name `"varname"` — and never receives the requested
variable name at all. Here both sources contain the requested variable
`temperature`, yet the sampling run raises `AttributeError` (looking up
`"varname"`) instead of comparing `temperature`'s values. -/
theorem claim_C1_sampling_reads_literal_varname :
    compare_multiple_random_values dsTemperature dsTemperature
      (fun _ _ _ => some true) num_comparisons_default
      = .error .attributeError
    ∧ (dsTemperature.variables_.lookup "temperature").isSome = true :=
  ⟨rfl, rfl⟩

/-! ## Claim C3 -/

/-- Claim C3: a single sampling trial of `_match_random_value` with
threshold `t` classifies as Indeterminate (`None`) exactly when either
sampled value is NaN (modelled `none`); otherwise it is Match (`True`)
exactly when `|value_b - value_a| <= t`, and Mismatch (`False`) exactly when
`|value_b - value_a| > t`, in which case the detailed report carrying the
variable shape, the sampled index, both values and the signed difference
`value_b - value_a` is emitted (default threshold: `thresh_default`). -/
theorem claim_C3_trial_classification (var_shape rand_index : List ℕ)
    (value_a value_b : Option ℚ) (thresh : ℚ) :
    ((_match_random_value var_shape rand_index value_a value_b thresh).1 = none
      ↔ (value_a = none ∨ value_b = none))
    ∧ (∀ a b : ℚ, value_a = some a → value_b = some b →
      (((_match_random_value var_shape rand_index value_a value_b thresh).1
          = some true ↔ |b - a| ≤ thresh)
        ∧ ((_match_random_value var_shape rand_index value_a value_b thresh).1
          = some false ↔ thresh < |b - a|)
        ∧ ((_match_random_value var_shape rand_index value_a value_b thresh).2
          = if thresh < |b - a| then
              some ⟨var_shape, rand_index, a, b, b - a⟩
            else none))) := by
  constructor
  · cases value_a with
    | none => simp [_match_random_value]
    | some a =>
      cases value_b with
      | none => simp [_match_random_value]
      | some b =>
        simp only [_match_random_value]
        by_cases h : thresh < |b - a|
        · simp [h]
        · simp [h]
  · intro a b ha hb
    subst ha
    subst hb
    simp only [_match_random_value]
    by_cases h : thresh < |b - a|
    · simp [h, not_le.mpr h]
    · simp [h, not_lt.mp h]

/-- Witness for C3 at a concrete mismatching trial: values `0` and `1` with
threshold `1/2` yield the `False` classification and the full report. -/
theorem claim_C3_witness :
    (_match_random_value [2] [0] (some 0) (some 1) (1/2)).1 = some false
    ∧ (_match_random_value [2] [0] (some 0) (some 1) (1/2)).2
        = some ⟨[2], [0], 0, 1, 1 - 0⟩ := by
  have h := (claim_C3_trial_classification [2] [0] (some 0) (some 1)
    (1/2)).2 0 1 rfl rfl
  refine ⟨h.2.1.mpr (by norm_num), ?_⟩
  rw [h.2.2, if_pos (by norm_num)]

/-! ## Claim C4 -/

/-- Claim C4: on a dimension fetch, a default-mode failure that is a
`ValueError` mentioning `decode_times` triggers exactly one retry with time
decoding disabled — `_get_dims` returns whatever that single second fetch
returns, success or error, with no further attempt; a `ValueError` without
`decode_times` in its text and every non-`ValueError` propagate to the
caller unrecovered. -/
theorem claim_C4_time_decoding_retry
    (fetch : Bool → Except PyErr (List (String × ℕ))) :
    (∀ msg, fetch true = .error (.valueError msg) →
        str_contains_decode_times msg = true →
        _get_dims fetch = fetch false)
    ∧ (∀ msg, fetch true = .error (.valueError msg) →
        str_contains_decode_times msg = false →
        _get_dims fetch = .error (.valueError msg))
    ∧ (∀ err, fetch true = .error err →
        (∀ msg, err ≠ PyErr.valueError msg) →
        _get_dims fetch = .error err) := by
  refine ⟨fun msg h1 h2 => ?_, fun msg h1 h2 => ?_, fun err h1 h2 => ?_⟩
  · unfold _get_dims
    rw [h1]
    simp [h2]
  · unfold _get_dims
    rw [h1]
    simp [h2]
  · unfold _get_dims
    rw [h1]
    cases err with
    | valueError msg => exact absurd rfl (h2 msg)
    | keyError trace => rfl
    | osError => rfl
    | attributeError => rfl

/-- A fetch whose default (`decode_times=True`) attempt fails with a
time-decoding `ValueError` and whose fallback attempt succeeds. -/
def fetchTimeDecoding : Bool → Except PyErr (List (String × ℕ)) :=
  fun decode_times =>
    if decode_times then
      .error (.valueError "unable to decode times; try decode_times=False")
    else .ok [("time", 10)]

/-- Witness for C4: the concrete time-decoding failure is retried once
without time decoding and that retry's dimension list is returned. -/
theorem claim_C4_witness :
    _get_dims fetchTimeDecoding = .ok [("time", 10)]
    ∧ fetchTimeDecoding true
        = .error (.valueError "unable to decode times; try decode_times=False") := by
  have h := (claim_C4_time_decoding_retry fetchTimeDecoding).1
    "unable to decode times; try decode_times=False" rfl (by decide)
  exact ⟨h.trans rfl, rfl⟩

/-! ## Claim C5 -/

/-- Variable properties carrying a two-element iterable attribute `xs`. -/
def vpIter : VarProperties :=
  ⟨"v", some vPlain, "float32", "(2,)", "[2]",
    some [("xs", .iterable [.intVal 1, .intVal 2])]⟩

/-- Counterexample to claim C5: the claim says an iterable attribute of 5 or
fewer elements "is rendered in full without a truncation marker", i.e. as
its plain `str()` form. The code appends the `", ...]"` marker to every
non-string, non-float iterable regardless of length: the two-element
iterable `[1, 2]` is displayed as `"[1, 2, ...]"`, not as its full rendering
`"[1, 2]"`. -/
theorem claim_C5_counterexample :
    _get_attribute_value_as_str vpIter "xs" = some "[1, 2, ...]"
    ∧ pyStr (.iterable [.intVal 1, .intVal 2]) = "[1, 2]"
    ∧ _get_attribute_value_as_str vpIter "xs"
        ≠ some (pyStr (.iterable [.intVal 1, .intVal 2])) := by
  refine ⟨by decide, by decide, by decide⟩

/-- Claim C5 as amended: a non-string, non-float iterable attribute value is
rendered as `"["`, its first `min(5, length)` elements joined by `", "`, and
the closing `", ...]"` — so only elements beyond the 5th are dropped (an
iterable of 5 or fewer elements shows all its elements), but the ellipsis
marker appears for every iterable regardless of length; scalar, string and
float values are rendered unmodified by `str`; a key absent from the
attributes mapping renders as the empty string. -/
theorem claim_C5_amended_rendering (vp : VarProperties)
    (attrs : List (String × AttrValue)) (key : String)
    (hattrs : vp.attributes = some attrs) :
    (∀ es, attrs.lookup key = some (.iterable es) →
      _get_attribute_value_as_str vp key
        = some ("[" ++ String.intercalate ", " ((es.take 5).map pyStrScalar)
            ++ ", ...]"))
    ∧ (∀ es, attrs.lookup key = some (.iterable es) → es.length ≤ 5 →
      _get_attribute_value_as_str vp key
        = some ("[" ++ String.intercalate ", " (es.map pyStrScalar)
            ++ ", ...]"))
    ∧ (∀ v, attrs.lookup key = some (.scalar v) →
      _get_attribute_value_as_str vp key = some (pyStrScalar v))
    ∧ (attrs.lookup key = none →
      _get_attribute_value_as_str vp key = some "") := by
  refine ⟨fun es h => ?_, fun es h hlen => ?_, fun v h => ?_, fun h => ?_⟩
  · simp [_get_attribute_value_as_str, hattrs, h]
  · simp [_get_attribute_value_as_str, hattrs, h]
    rw [List.take_of_length_le (by simpa using hlen)]
  · simp [_get_attribute_value_as_str, hattrs, h]
  · simp [_get_attribute_value_as_str, hattrs, h]

/-- Witness for C5 (amended): the two-element iterable is rendered with both
elements and the unconditional marker. -/
theorem claim_C5_witness :
    _get_attribute_value_as_str vpIter "xs"
      = some ("[" ++ String.intercalate ", "
          ([AttrScalar.intVal 1, AttrScalar.intVal 2].map pyStrScalar)
          ++ ", ...]") :=
  (claim_C5_amended_rendering vpIter
    [("xs", .iterable [.intVal 1, .intVal 2])] "xs" rfl).2.1
    [.intVal 1, .intVal 2] rfl (by decide)

/-! ## Claim C7 -/

/-- The glyph list printed by the trial loop is one glyph per trial. -/
theorem sampling_loop_glyphs (results : List (Option Bool)) :
    (sampling_loop results).1 = results.map trialChar := by
  induction results with
  | nil => rfl
  | cons r rest ih => simp [sampling_loop, ih]

/-- The tally incremented on `"x"` glyphs counts exactly the `False`
(mismatch) classifications. -/
theorem sampling_loop_count (results : List (Option Bool)) :
    (sampling_loop results).2 = results.count (some false) := by
  induction results with
  | nil => rfl
  | cons r rest ih =>
    rcases r with _ | _ | _ <;>
      (simp [sampling_loop, ih, trialChar, List.count_cons]; try omega)

/-- Claim C7: the sampling run prints exactly one progress glyph per trial —
`"."` for Match, `"n"` for Indeterminate, `"x"` for Mismatch — and the
reported mismatch count equals the number of trials classified Mismatch;
with zero trials the count is 0 and no glyph is printed. The final message
reports that count (and, when nonzero, the total trial count); when both
sources expose a variable literally named `varname`, one run of
`compare_multiple_random_values` produces exactly these glyphs, tally and
message for its `num_comparisons` trial outcomes. -/
theorem claim_C7_glyph_stream_and_tally :
    (∀ results, (sampling_loop results).1 = results.map trialChar)
    ∧ (∀ results : List (Option Bool),
        (sampling_loop results).1.length = results.length)
    ∧ (∀ results, (sampling_loop results).2 = results.count (some false))
    ∧ trialChar (some true) = "." ∧ trialChar none = "n"
    ∧ trialChar (some false) = "x"
    ∧ sampling_loop [] = ([], 0)
    ∧ (∀ n, final_message 0 n = " No mismatches.")
    ∧ (∀ k n, final_message (k + 1) n
        = " " ++ toString (k + 1) ++ " mismatches, out of " ++ toString n
          ++ " samples.")
    ∧ (∀ (va vb : NCVariable) (trial : ℕ → NCVariable → NCVariable → Option Bool)
        (n : ℕ),
        compare_multiple_random_values ⟨[("varname", va)]⟩ ⟨[("varname", vb)]⟩
          trial n
        = .ok ⟨(sampling_loop ((List.range n).map fun i => trial i va vb)).1,
            (sampling_loop ((List.range n).map fun i => trial i va vb)).2,
            final_message
              ((sampling_loop ((List.range n).map fun i => trial i va vb)).2)
              n⟩) := by
  refine ⟨sampling_loop_glyphs, ?_, sampling_loop_count, rfl, rfl, rfl, rfl,
    fun n => rfl, fun k n => ?_, fun va vb trial n => rfl⟩
  · intro results
    rw [sampling_loop_glyphs]
    exact List.length_map _ _
  · simp [final_message]

/-! ## Claim C10 -/

/-- Claim C10: the first row emitted for a matched variable is the
`-----VARIABLE-----:` name row, showing `varname[:47]` of each side — the
full name when it has at most 47 characters — and that row is never flagged
as a highlighted difference (`highlight_diff=False`), whatever the names
are. -/
theorem claim_C10_name_row (v_a v_b : VarProperties)
    (show_chunks show_attributes : Bool) (rows : List Row)
    (h : _print_var_properties_side_by_side v_a v_b show_chunks
        show_attributes = some rows) :
    rows.head? = some ⟨"-----VARIABLE-----:", v_a.varname.take 47,
        v_b.varname.take 47, false, false⟩
    ∧ (v_a.varname.length ≤ 47 → v_a.varname.take 47 = v_a.varname)
    ∧ (v_b.varname.length ≤ 47 → v_b.varname.take 47 = v_b.varname) := by
  refine ⟨?_, fun hl => string_take_of_length_le _ _ hl,
    fun hl => string_take_of_length_le _ _ hl⟩
  unfold _print_var_properties_side_by_side at h
  rw [Option.map_eq_some'] at h
  obtain ⟨ars, _, hrows⟩ := h
  subst hrows
  rfl

/-- `VarProperties` of the attribute-bearing variable `v` of source A, as
`_var_properties` builds them. -/
def vpUnitsProps : VarProperties :=
  ⟨"v", some vUnits, "float32", "(2,)", "[2]", some vUnits.attributes⟩

/-- `VarProperties` of the attribute-free variable `v` of source B. -/
def vpPlainProps : VarProperties :=
  ⟨"v", some vPlain, "float32", "(2,)", "[2]", some []⟩

set_option maxRecDepth 8192 in
/-- Witness for C10 at a concrete matched variable: the emitted rows start
with the unhighlighted name row, and the one-character name is shown in
full. -/
theorem claim_C10_witness :
    ([⟨"-----VARIABLE-----:", "v", "v", false, false⟩,
      ⟨"dtype:", "float32", "float32", true, false⟩,
      ⟨"shape:", "(2,)", "(2,)", true, false⟩] : List Row).head?
      = some ⟨"-----VARIABLE-----:", vpUnitsProps.varname.take 47,
          vpPlainProps.varname.take 47, false, false⟩
    ∧ (vpUnitsProps.varname.length ≤ 47 →
        vpUnitsProps.varname.take 47 = vpUnitsProps.varname) := by
  have h := claim_C10_name_row vpUnitsProps vpPlainProps false false
    [⟨"-----VARIABLE-----:", "v", "v", false, false⟩,
     ⟨"dtype:", "float32", "float32", true, false⟩,
     ⟨"shape:", "(2,)", "(2,)", true, false⟩] (by decide)
  exact ⟨h.1, h.2.1⟩

/-! ## Claim C9 -/

/-- The truthiness test on the scale factor succeeds exactly for a present,
nonzero scale factor. -/
theorem truthy_scale_factor_isSome_iff (v : VarProperties) :
    (truthy_scale_factor v).isSome = true ↔ has_nonzero_scale_factor v := by
  unfold truthy_scale_factor has_nonzero_scale_factor
  cases hv : v.variable_ with
  | none => simp
  | some nc =>
    cases hs : nc.scale_factor with
    | none => simp [hs]
    | some q =>
      by_cases hq : q = 0
      · subst hq
        simp [hs]
      · simp [hs, hq]

/-- Claim C9: the `sf:` block of rows for a matched variable is nonempty —
i.e. the scale-factor row is emitted, as the final rows of the variable's
output — if and only if at least one side's variable defines a nonzero
scale factor; the row is flagged as a highlighted difference, and a side
without a nonzero scale factor shows the blank `' '` placeholder. -/
theorem claim_C9_scale_factor_row (v_a v_b : VarProperties)
    (show_chunks show_attributes : Bool) (rows : List Row)
    (h : _print_var_properties_side_by_side v_a v_b show_chunks
        show_attributes = some rows) :
    (scale_factor_rows v_a v_b).IsSuffix rows
    ∧ (scale_factor_rows v_a v_b ≠ []
        ↔ (has_nonzero_scale_factor v_a ∨ has_nonzero_scale_factor v_b))
    ∧ (∀ row ∈ scale_factor_rows v_a v_b,
        row.label = "sf:" ∧ row.highlight_diff = true
        ∧ (¬ has_nonzero_scale_factor v_a → row.val_a = " ")
        ∧ (¬ has_nonzero_scale_factor v_b → row.val_b = " ")) := by
  refine ⟨?_, ?_, ?_⟩
  · unfold _print_var_properties_side_by_side at h
    rw [Option.map_eq_some'] at h
    obtain ⟨ars, _, hrows⟩ := h
    subst hrows
    refine ⟨[⟨"-----VARIABLE-----:", v_a.varname.take 47,
        v_b.varname.take 47, false, false⟩,
      ⟨"dtype:", v_a.dtype, v_b.dtype, true, false⟩,
      ⟨"shape:", v_a.shape, v_b.shape, true, false⟩]
      ++ (if show_chunks then
            [⟨"chunksize:", v_a.chunking, v_b.chunking, true, false⟩]
          else [])
      ++ ars, ?_⟩
    simp [List.append_assoc]
  · rw [← truthy_scale_factor_isSome_iff v_a, ← truthy_scale_factor_isSome_iff v_b]
    unfold scale_factor_rows
    cases hA : (truthy_scale_factor v_a).isSome <;>
      cases hB : (truthy_scale_factor v_b).isSome <;> simp [hA, hB]
  · intro row hrow
    unfold scale_factor_rows at hrow
    split at hrow
    · rw [List.mem_singleton] at hrow
      subst hrow
      refine ⟨rfl, rfl, fun hna => ?_, fun hnb => ?_⟩
      · have : truthy_scale_factor v_a = none := by
          cases h' : truthy_scale_factor v_a with
          | none => rfl
          | some q =>
            exact absurd ((truthy_scale_factor_isSome_iff v_a).mp
              (by simp [h'])) hna
        simp [this, scale_factor_str]
      · have : truthy_scale_factor v_b = none := by
          cases h' : truthy_scale_factor v_b with
          | none => rfl
          | some q =>
            exact absurd ((truthy_scale_factor_isSome_iff v_b).mp
              (by simp [h'])) hnb
        simp [this, scale_factor_str]
    · cases hrow

/-- A variable carrying a nonzero `scale_factor` of 2. -/
def vScaled : NCVariable := ⟨"int16", "(2,)", "[2]", [], some 2⟩

/-- `VarProperties` of the scaled variable. -/
def vpScaled : VarProperties :=
  ⟨"w", some vScaled, "int16", "(2,)", "[2]", some []⟩

set_option maxRecDepth 8192 in
/-- Witness for C9: with a nonzero scale factor on the A side only, the
`sf:` row is emitted as the final row, highlighted, with the blank
placeholder on the B side. -/
theorem claim_C9_witness :
    scale_factor_rows vpScaled vpPlainProps ≠ []
    ∧ (scale_factor_rows vpScaled vpPlainProps).IsSuffix
        [⟨"-----VARIABLE-----:", "w", "v", false, false⟩,
         ⟨"dtype:", "int16", "float32", true, false⟩,
         ⟨"shape:", "(2,)", "(2,)", true, false⟩,
         ⟨"sf:", "2", " ", true, false⟩] := by
  have h := claim_C9_scale_factor_row vpScaled vpPlainProps false false
    [⟨"-----VARIABLE-----:", "w", "v", false, false⟩,
     ⟨"dtype:", "int16", "float32", true, false⟩,
     ⟨"shape:", "(2,)", "(2,)", true, false⟩,
     ⟨"sf:", "2", " ", true, false⟩] (by decide)
  exact ⟨h.2.1.mpr (Or.inl ⟨vScaled, 2, rfl, rfl, by norm_num⟩), h.1⟩

/-! ## Claim C2 -/

/-- A run in which looking up the requested comparison group fails:
`_get_vars` on file A raises `OSError` (it prints a note and re-raises);
everything else would succeed. -/
def envLookupFail : RunEnv :=
  ⟨.ok [], .ok [], .ok [], .ok [], .error .osError, .ok [],
    .ok (), .ok (), .ok (), .ok (0, 0, 0)⟩

/-- Counterexample to claim C2: the claim says every failure to look up the
requested comparison group or variable is caught locally and the pass
continues to the all-variables phase. But `_get_vars` runs outside the
`try` block and re-raises its `OSError`, so a failure to open the requested
group aborts the whole pass — the run returns the error and the
all-variables phase is never reached. -/
theorem claim_C2_counterexample :
    run_through_comparisons envLookupFail (some "g") (some "v")
      = .error PyErr.osError := rfl

/-- Claim C2 as amended: only a `KeyError` raised inside the targeted
inspection block (printing sample values or running the sampling comparator)
is caught; it is reported together with its `traceback.format_exc()` trace
and the pass continues to the all-variables phase. A failure to open the
requested group (raised by `_get_vars`, outside the handler) and any
non-`KeyError` failure propagate and abort the pass. -/
theorem claim_C2_amended_keyerror_caught (env : RunEnv)
    (comparison_var_group comparison_var_name : Option String)
    (da db : List (String × ℕ)) (ga gb va vb : List String)
    (av : ℕ × ℕ × ℕ) (trace : String)
    (h1 : env.dims_a = .ok da) (h2 : env.dims_b = .ok db)
    (h3 : env.groups_a = .ok ga) (h4 : env.groups_b = .ok gb)
    (h5 : pyTruthy comparison_var_group = true)
    (h6 : env.vars_a = .ok va) (h7 : env.vars_b = .ok vb)
    (h8 : pyTruthy comparison_var_name = true)
    (h9 : (do
        let _ ← env.sample_a
        let _ ← env.sample_b
        let _ ← env.random_check
        pure () : Except PyErr Unit) = .error (.keyError trace))
    (h10 : env.all_vars = .ok av) :
    run_through_comparisons env comparison_var_group comparison_var_name
      = .ok [Event.dims_compared, Event.groups_compared,
          Event.group_vars_compared, Event.lookup_error_reported trace,
          Event.all_variables_compared] := by
  unfold run_through_comparisons
  simp only [h1, h2, h3, h4, h5, h6, h7, h8, h10, bind, Except.bind,
    if_true, ite_true]
  simp only [bind, Except.bind] at h9
  rw [h9]
  rfl

/-- A run in which printing the sample values of the requested variable
raises `KeyError` (the variable is missing from file A's group). -/
def envKeyErr : RunEnv :=
  ⟨.ok [], .ok [], .ok [], .ok [], .ok [], .ok [],
    .error (.keyError "Traceback: KeyError: t"), .ok (), .ok (),
    .ok (0, 0, 0)⟩

/-- Witness for C2 (amended): the `KeyError` is caught, reported with its
trace, and the all-variables phase still runs. -/
theorem claim_C2_witness :
    run_through_comparisons envKeyErr (some "grp") (some "var")
      = .ok [Event.dims_compared, Event.groups_compared,
          Event.group_vars_compared,
          Event.lookup_error_reported "Traceback: KeyError: t",
          Event.all_variables_compared] :=
  claim_C2_amended_keyerror_caught envKeyErr (some "grp") (some "var")
    [] [] [] [] [] [] (0, 0, 0) "Traceback: KeyError: t"
    rfl rfl rfl rfl rfl rfl rfl rfl rfl rfl

/-! ## Claim C6 -/

set_option maxRecDepth 16384 in
/-- Counterexample to claim C6: source A holds variable `v` with attributes
`units = "m"`; source B holds no variable `v` at all. The claim says the
comparison emits a highlighted `units:` attribute row with `m` on the A side
and the empty string on the B side. But the all-variables pass only prints
variables common to both sources, so no row for `v` — in particular no
`units:` row — is emitted at all; the full output is the summary rows
below. -/
theorem claim_C6_counterexample :
    compare_two_nc_files dsA dsBempty false true
      = some ((1, 0, 0),
        [⟨" ", "File A", "File B", false, false⟩,
         ⟨"All Variables", " ", " ", false, false⟩,
         ⟨"-", "-", "-", false, true⟩,
         ⟨"num variables in root group:", "1", "0", false, false⟩,
         ⟨"-", "-", "-", false, true⟩,
         ⟨"-", "-", "-", false, true⟩,
         ⟨"Total number of shared items:", "0", "0", false, false⟩,
         ⟨"Total number of non-shared items:", "1", "0", false, false⟩])
    ∧ (compare_two_nc_files dsA dsBempty false true).map
        (fun res => res.2.all fun row => row.label != "units:")
      = some true :=
  ⟨by decide, by decide⟩

set_option maxRecDepth 16384 in
/-- Claim C6 as amended: the scenario can only arise for a variable present
in both sources. For variable `v` present in A and B where the `units`
attribute exists only on the A side, the attribute-enabled comparison emits
the attribute row `units:` with the stringified value `m` on the A side and
the empty string on the B side, flagged as a highlighted difference. -/
theorem claim_C6_amended_shared_variable :
    compare_two_nc_files dsA dsB false true
      = some ((0, 0, 1),
        [⟨" ", "File A", "File B", false, false⟩,
         ⟨"All Variables", " ", " ", false, false⟩,
         ⟨"-", "-", "-", false, true⟩,
         ⟨"num variables in root group:", "1", "1", false, false⟩,
         ⟨"-", "-", "-", false, true⟩,
         ⟨"-----VARIABLE-----:", "v", "v", false, false⟩,
         ⟨"dtype:", "float32", "float32", true, false⟩,
         ⟨"shape:", "(2,)", "(2,)", true, false⟩,
         ⟨"units:", "m", "", true, false⟩,
         ⟨"-", "-", "-", false, true⟩,
         ⟨"Total number of shared items:", "1", "1", false, false⟩,
         ⟨"Total number of non-shared items:", "0", "0", false, false⟩])
    ∧ (compare_two_nc_files dsA dsB false true).map
        (fun res => decide ((⟨"units:", "m", "", true, false⟩ : Row) ∈ res.2))
      = some true :=
  ⟨by decide, by decide⟩

/-! ## Claim C8 -/

/-- Inserting into the sorted list permutes consing. -/
theorem insert_sorted_perm (s : String) (l : List String) :
    List.Perm (insert_sorted s l) (s :: l) := by
  induction l with
  | nil => exact List.Perm.refl _
  | cons t rest ih =>
    unfold insert_sorted
    split
    · exact List.Perm.refl _
    · exact (ih.cons t).trans (List.Perm.swap s t rest)

/-- Sorting permutes the list. -/
theorem pySorted_perm (l : List String) : List.Perm (pySorted l) l := by
  induction l with
  | nil => exact List.Perm.refl _
  | cons s rest ih =>
    exact (insert_sorted_perm s (pySorted rest)).trans (ih.cons s)

/-- Alignment identity of `count_diffs` on the left collection. -/
theorem count_diffs_shared_left (a b : List String) (ha : a.Nodup) :
    (count_diffs a b).2.2 + (count_diffs a b).1 = a.length := by
  unfold count_diffs
  exact (Finset.card_inter_add_card_sdiff _ _).trans
    (List.toFinset_card_of_nodup ha)

/-- Alignment identity of `count_diffs` on the right collection. -/
theorem count_diffs_shared_right (a b : List String) (hb : b.Nodup) :
    (count_diffs a b).2.2 + (count_diffs a b).2.1 = b.length := by
  unfold count_diffs
  rw [Finset.inter_comm]
  exact (Finset.card_inter_add_card_sdiff _ _).trans
    (List.toFinset_card_of_nodup hb)

/-- The per-group counts `_process_variables` adds to the running totals
satisfy the alignment identities against the group's variable lists. -/
theorem process_variables_counts (nc_a nc_b : Dataset) (g : String)
    (sc sa : Bool) (res : (ℕ × ℕ × ℕ) × List Row)
    (hga : ∀ la, nc_a.groups.lookup g = some la → (la.map Prod.fst).Nodup)
    (hgb : ∀ lb, nc_b.groups.lookup g = some lb → (lb.map Prod.fst).Nodup)
    (h : _process_variables nc_a nc_b g sc sa = some res) :
    res.1.2.2 + res.1.1 = ((nc_a.groups.lookup g).getD []).length
    ∧ res.1.2.2 + res.1.2.1 = ((nc_b.groups.lookup g).getD []).length := by
  unfold _process_variables at h
  cases hgrpa : List.lookup g nc_a.groups with
  | none => simp [hgrpa] at h
  | some grp_a =>
  cases hgrpb : List.lookup g nc_b.groups with
  | none => simp [hgrpa, hgrpb] at h
  | some grp_b =>
  cases hvr : shared_variable_rows nc_a nc_b (some g) sc sa
      (py_set_and_sorted (pySorted (grp_a.map Prod.fst))
        (pySorted (grp_b.map Prod.fst))) with
  | none => simp [hgrpa, hgrpb, hvr] at h
  | some vr =>
  simp [hgrpa, hgrpb, hvr] at h
  subst h
  have hnA : (pySorted (grp_a.map Prod.fst)).Nodup :=
    ((pySorted_perm _).nodup_iff).mpr (hga grp_a hgrpa)
  have hnB : (pySorted (grp_b.map Prod.fst)).Nodup :=
    ((pySorted_perm _).nodup_iff).mpr (hgb grp_b hgrpb)
  constructor
  · calc (count_diffs (pySorted (grp_a.map Prod.fst))
        (pySorted (grp_b.map Prod.fst))).2.2
        + (count_diffs (pySorted (grp_a.map Prod.fst))
            (pySorted (grp_b.map Prod.fst))).1
        = (pySorted (grp_a.map Prod.fst)).length :=
          count_diffs_shared_left _ _ hnA
      _ = (grp_a.map Prod.fst).length := (pySorted_perm _).length_eq
      _ = grp_a.length := List.length_map _ _
      _ = ((some grp_a).getD []).length := rfl
  · calc (count_diffs (pySorted (grp_a.map Prod.fst))
        (pySorted (grp_b.map Prod.fst))).2.2
        + (count_diffs (pySorted (grp_a.map Prod.fst))
            (pySorted (grp_b.map Prod.fst))).2.1
        = (pySorted (grp_b.map Prod.fst)).length :=
          count_diffs_shared_right _ _ hnB
      _ = (grp_b.map Prod.fst).length := (pySorted_perm _).length_eq
      _ = grp_b.length := List.length_map _ _
      _ = ((some grp_b).getD []).length := rfl

/-- Summing per-group counts over a successful group loop. -/
theorem run_sections_counts_sum
    (f : String → Option ((ℕ × ℕ × ℕ) × List Row)) (ka kb : String → ℕ)
    (hf : ∀ g res, f g = some res →
      res.1.2.2 + res.1.1 = ka g ∧ res.1.2.2 + res.1.2.1 = kb g) :
    ∀ (gs : List String) (grs : List ((ℕ × ℕ × ℕ) × List Row)),
      run_sections f gs = some grs →
      ((grs.map fun p => p.1.2.2).sum + (grs.map fun p => p.1.1).sum
          = (gs.map ka).sum)
      ∧ ((grs.map fun p => p.1.2.2).sum + (grs.map fun p => p.1.2.1).sum
          = (gs.map kb).sum) := by
  intro gs
  induction gs with
  | nil =>
    intro grs h
    simp only [run_sections, Option.some.injEq] at h
    subst h
    simp
  | cons g rest ih =>
    intro grs h
    unfold run_sections at h
    cases hp : f g with
    | none => simp [hp] at h
    | some p =>
    simp only [hp] at h
    cases hps : run_sections f rest with
    | none => simp [hps] at h
    | some ps =>
    simp only [hps, Option.some.injEq] at h
    subst h
    have h1 := hf g p hp
    have h2 := ih ps hps
    simp only [List.map_cons, List.sum_cons]
    omega

/-- Claim C8: over the root group and every group name common to both
sources, the all-variables pass accumulates per-collection diff counts, and
`compare_two_nc_files` returns exactly `(left_only_total, right_only_total,
shared_total)` satisfying the alignment identities: `shared + left_only`
equals the total number of variable names in A over those collections,
`shared + right_only` the corresponding total for B; per collection the
shared count of `count_diffs` is the size of the intersection of the two
variable-name sets. Variable names within a collection are assumed unique
(netCDF mappings). -/
theorem claim_C8_alignment_totals (nc_a nc_b : Dataset) (sc sa : Bool)
    (l r s : ℕ) (rows : List Row)
    (ha : (nc_a.variables_.map Prod.fst).Nodup)
    (hb : (nc_b.variables_.map Prod.fst).Nodup)
    (hga : ∀ g la, nc_a.groups.lookup g = some la → (la.map Prod.fst).Nodup)
    (hgb : ∀ g lb, nc_b.groups.lookup g = some lb → (lb.map Prod.fst).Nodup)
    (hres : compare_two_nc_files nc_a nc_b sc sa = some ((l, r, s), rows)) :
    s + l = total_vars_over nc_a (common_group_names nc_a nc_b)
    ∧ s + r = total_vars_over nc_b (common_group_names nc_a nc_b)
    ∧ ∀ xs ys : List String,
        (count_diffs xs ys).2.2 = (xs.toFinset ∩ ys.toFinset).card := by
  unfold compare_two_nc_files at hres
  cases hroot : shared_variable_rows nc_a nc_b none sc sa
      (py_set_and_sorted (nc_a.variables_.map Prod.fst)
        (nc_b.variables_.map Prod.fst)) with
  | none => simp [hroot] at hres
  | some root_rows =>
  cases hgrs : run_sections (group_section nc_a nc_b sc sa)
      (common_group_names nc_a nc_b) with
  | none => simp [hroot, hgrs] at hres
  | some grs =>
  simp [hroot, hgrs] at hres
  obtain ⟨h1, h2, h3, _⟩ := hres
  have hf : ∀ g res, group_section nc_a nc_b sc sa g = some res →
      res.1.2.2 + res.1.1 = ((nc_a.groups.lookup g).getD []).length
      ∧ res.1.2.2 + res.1.2.1 = ((nc_b.groups.lookup g).getD []).length := by
    intro g res hsec
    unfold group_section at hsec
    cases hpr : _process_variables nc_a nc_b g sc sa with
    | none => simp [hpr] at hsec
    | some pr =>
    simp [hpr] at hsec
    subst hsec
    exact process_variables_counts nc_a nc_b g sc sa pr (hga g) (hgb g) hpr
  have hsums := run_sections_counts_sum (group_section nc_a nc_b sc sa)
    (fun g => ((nc_a.groups.lookup g).getD []).length)
    (fun g => ((nc_b.groups.lookup g).getD []).length) hf
    (common_group_names nc_a nc_b) grs hgrs
  have hrootA : ((nc_a.variables_.map Prod.fst).toFinset
        ∩ (nc_b.variables_.map Prod.fst).toFinset).card
      + ((nc_a.variables_.map Prod.fst).toFinset
          \ (nc_b.variables_.map Prod.fst).toFinset).card
      = nc_a.variables_.length :=
    (Finset.card_inter_add_card_sdiff _ _).trans
      ((List.toFinset_card_of_nodup ha).trans (List.length_map _ _))
  have hrootB : ((nc_b.variables_.map Prod.fst).toFinset
        ∩ (nc_a.variables_.map Prod.fst).toFinset).card
      + ((nc_b.variables_.map Prod.fst).toFinset
          \ (nc_a.variables_.map Prod.fst).toFinset).card
      = nc_b.variables_.length :=
    (Finset.card_inter_add_card_sdiff _ _).trans
      ((List.toFinset_card_of_nodup hb).trans (List.length_map _ _))
  rw [Finset.inter_comm] at hrootB
  refine ⟨?_, ?_, fun xs ys => rfl⟩
  · unfold total_vars_over
    have hs1 := hsums.1
    omega
  · unfold total_vars_over
    have hs2 := hsums.2
    omega

/-- Source A of the grouped witness scenario: root variable `v`, group
`science` with variables `t`, `u`. -/
def dsGA : Dataset :=
  ⟨[("v", vUnits)], [("science", [("t", vPlain), ("u", vPlain)])]⟩

/-- Source B of the grouped witness scenario: root variables `v`, `w`,
group `science` with variable `t`. -/
def dsGB : Dataset :=
  ⟨[("v", vPlain), ("w", vPlain)], [("science", [("t", vPlain)])]⟩

set_option maxRecDepth 16384 in
/-- Witness for C8: on the grouped scenario the pass returns
`(left, right, shared) = (1, 1, 2)` and both alignment identities hold —
`2 + 1` equals the 3 variable names of A (1 root + 2 in `science`) and the
3 of B (2 root + 1 in `science`). -/
theorem claim_C8_witness :
    2 + 1 = total_vars_over dsGA (common_group_names dsGA dsGB)
    ∧ 2 + 1 = total_vars_over dsGB (common_group_names dsGA dsGB) := by
  have hga : ∀ g la, dsGA.groups.lookup g = some la →
      (la.map Prod.fst).Nodup := by
    intro g la hh
    simp only [dsGA, List.lookup] at hh
    split at hh
    · cases hh
      decide
    · cases hh
  have hgb : ∀ g lb, dsGB.groups.lookup g = some lb →
      (lb.map Prod.fst).Nodup := by
    intro g lb hh
    simp only [dsGB, List.lookup] at hh
    split at hh
    · cases hh
      decide
    · cases hh
  have h := claim_C8_alignment_totals dsGA dsGB false false 1 1 2
    [⟨" ", "File A", "File B", false, false⟩,
     ⟨"All Variables", " ", " ", false, false⟩,
     ⟨"-", "-", "-", false, true⟩,
     ⟨"num variables in root group:", "1", "2", false, false⟩,
     ⟨"-", "-", "-", false, true⟩,
     ⟨"-----VARIABLE-----:", "v", "v", false, false⟩,
     ⟨"dtype:", "float32", "float32", true, false⟩,
     ⟨"shape:", "(2,)", "(2,)", true, false⟩,
     ⟨" ", " ", " ", false, false⟩,
     ⟨"GROUP #science", "science", "science", false, true⟩,
     ⟨"num variables in group:", "2", "1", true, false⟩,
     ⟨"-", "-", "-", false, true⟩,
     ⟨"-----VARIABLE-----:", "t", "t", false, false⟩,
     ⟨"dtype:", "float32", "float32", true, false⟩,
     ⟨"shape:", "(2,)", "(2,)", true, false⟩,
     ⟨"-", "-", "-", false, true⟩,
     ⟨"Total number of shared items:", "2", "2", false, false⟩,
     ⟨"Total number of non-shared items:", "1", "1", false, false⟩]
    (by decide) (by decide) hga hgb (by decide)
  exact ⟨h.1, h.2.1⟩

end Ncompare
